import Mathlib

/-!
Verification development for the Neuron dashboard repository.

Shallow embedding of the claim-relevant modules:
- the pipeline stage mapper (`neuron-dashboard/src/components/pipeline/TaskPipeline.tsx`);
- the aggregate dashboard poll (`neuron-dashboard/src/App.jsx`, `fetchState`);
- the local mutation intents (`neuron-dashboard/src/context/NeuronContext.tsx`,
  `toggleAgentEnabled` and `retryAgent`);
- the log severity filter (`neuron-dashboard/src/pages/Logs.tsx`);
- the test-project login handlers
  (`Neuron-Core/testproject/src/controllers/authController.js` and
  `testproject/src/controllers/authController.js`).

JavaScript numbers are modelled as `ℚ` where fractional values occur and as
`Nat`/`Int` where the source only ever holds integers; `undefined`/absent
fields are modelled with `Option`; promise rejection (network failure, thrown
exceptions) with an explicit outcome constructor or `Except`.
-/

namespace Neuron

/-! ### Domain model (`neuron-dashboard/src/types/neuron.ts`) -/

/-- The `TaskStatus` union from `types/neuron.ts`:
`'received' | 'analyzing' | 'implementing' | 'patching' | 'verifying' | 'completed' | 'failed'`. -/
inductive TaskStatus
  | received
  | analyzing
  | implementing
  | patching
  | verifying
  | completed
  | failed
deriving DecidableEq, Repr

/-- One entry of the `stages` array in `TaskPipeline.tsx` (the `icon` field is a
presentational component reference and is omitted). -/
structure Stage where
  status : TaskStatus
  label : String
deriving DecidableEq, Repr

/-- The fixed ordered `stages` array of `TaskPipeline.tsx` (lines 16-23). -/
def stages : List Stage :=
  [ { status := .received, label := "Received" },
    { status := .analyzing, label := "Analyzing" },
    { status := .implementing, label := "Implementing" },
    { status := .patching, label := "Patching" },
    { status := .verifying, label := "Verifying" },
    { status := .completed, label := "Completed" } ]

/-- The stage mapper `stageIndex` from `TaskPipeline.tsx` (lines 25-28):
`if (status === 'failed') return -1; return stages.findIndex(s => s.status === status);`.
JavaScript `findIndex` yields `-1` when no element matches, which the
`Option.elim` on `List.findIdx?` reproduces. -/
def stageIndex (status : TaskStatus) : Int :=
  if status = TaskStatus.failed then -1
  else
    match List.findIdx? (fun s => s.status == status) stages with
    | some i => (i : Int)
    | none => -1

/-- The progress-line fill percentage of `TaskPipeline.tsx` (line 114):
`Math.max(0, (currentStage / (stages.length - 1)) * 100)` where
`currentStage = stageIndex task.status`. -/
def progressFillPercent (status : TaskStatus) : ℚ :=
  max 0 (((stageIndex status : ℚ)) / (((stages.length : ℚ)) - 1) * 100)

lemma stageIndex_received : stageIndex TaskStatus.received = 0 := by decide

lemma stageIndex_analyzing : stageIndex TaskStatus.analyzing = 1 := by decide

lemma stageIndex_implementing : stageIndex TaskStatus.implementing = 2 := by decide

lemma stageIndex_patching : stageIndex TaskStatus.patching = 3 := by decide

lemma stageIndex_verifying : stageIndex TaskStatus.verifying = 4 := by decide

lemma stageIndex_completed : stageIndex TaskStatus.completed = 5 := by decide

lemma stageIndex_failed : stageIndex TaskStatus.failed = -1 := by decide

lemma fill_received : progressFillPercent TaskStatus.received = 0 := by
  unfold progressFillPercent; rw [stageIndex_received]; norm_num [stages]

lemma fill_analyzing : progressFillPercent TaskStatus.analyzing = 20 := by
  unfold progressFillPercent; rw [stageIndex_analyzing]; norm_num [stages]

lemma fill_implementing : progressFillPercent TaskStatus.implementing = 40 := by
  unfold progressFillPercent; rw [stageIndex_implementing]; norm_num [stages]

lemma fill_patching : progressFillPercent TaskStatus.patching = 60 := by
  unfold progressFillPercent; rw [stageIndex_patching]; norm_num [stages]

lemma fill_verifying : progressFillPercent TaskStatus.verifying = 80 := by
  unfold progressFillPercent; rw [stageIndex_verifying]; norm_num [stages]

lemma fill_completed : progressFillPercent TaskStatus.completed = 100 := by
  unfold progressFillPercent; rw [stageIndex_completed]; norm_num [stages]

lemma fill_failed : progressFillPercent TaskStatus.failed = 0 := by
  unfold progressFillPercent; rw [stageIndex_failed]; norm_num [stages]

/-- C1: the stage mapper returns each in-pipeline status's zero-based position
in the 6-stage list `stages`, and `-1` for `failed`; it is a pure function of
the status (total Lean function by construction). -/
theorem stageIndex_spec :
    stageIndex TaskStatus.received = 0 ∧
    stageIndex TaskStatus.analyzing = 1 ∧
    stageIndex TaskStatus.implementing = 2 ∧
    stageIndex TaskStatus.patching = 3 ∧
    stageIndex TaskStatus.verifying = 4 ∧
    stageIndex TaskStatus.completed = 5 ∧
    stageIndex TaskStatus.failed = -1 ∧
    stages.length = 6 := by
  decide

/-- C5: the fill percentage `max 0 (stageIndex s / (stages.length - 1) * 100)`
lies in `[0, 100]` for every task status, and is monotone in the stage index:
a status with a higher stage index never yields a smaller fill percentage. -/
theorem progressFillPercent_spec :
    stages.length = 6 ∧
    (∀ s : TaskStatus, 0 ≤ progressFillPercent s ∧ progressFillPercent s ≤ 100) ∧
    (∀ s t : TaskStatus, stageIndex s ≤ stageIndex t →
      progressFillPercent s ≤ progressFillPercent t) := by
  refine ⟨rfl, ?_, ?_⟩
  · intro s
    cases s <;>
      simp only [fill_received, fill_analyzing, fill_implementing, fill_patching,
        fill_verifying, fill_completed, fill_failed] <;>
      norm_num
  · intro s t h
    cases s <;> cases t <;>
      simp only [stageIndex_received, stageIndex_analyzing, stageIndex_implementing,
        stageIndex_patching, stageIndex_verifying, stageIndex_completed,
        stageIndex_failed] at h <;>
      simp only [fill_received, fill_analyzing, fill_implementing, fill_patching,
        fill_verifying, fill_completed, fill_failed] <;>
      norm_num at h ⊢

/-- Witness for C5's monotonicity hypothesis at a concrete pair of statuses:
`analyzing` (index 1) precedes `verifying` (index 4), and the fill percentage
respects that order. -/
theorem progressFillPercent_spec_witness :
    stageIndex TaskStatus.analyzing ≤ stageIndex TaskStatus.verifying ∧
    progressFillPercent TaskStatus.analyzing ≤ progressFillPercent TaskStatus.verifying :=
  ⟨by decide, progressFillPercent_spec.2.2 TaskStatus.analyzing TaskStatus.verifying (by decide)⟩

/-! ### Agents and local mutation intents (`context/NeuronContext.tsx`) -/

/-- The `AgentStatus` union from `types/neuron.ts`: `'idle' | 'working' | 'waiting' | 'failed'`. -/
inductive AgentStatus
  | idle
  | working
  | waiting
  | failed
deriving DecidableEq, Repr

/-- The agent `type` union from `types/neuron.ts`. -/
inductive AgentType
  | architect
  | backend
  | frontend
  | reviewer
  | patcher
  | verifier
deriving DecidableEq, Repr

/-- The `Agent` record from `types/neuron.ts`. -/
structure Agent where
  id : String
  name : String
  type : AgentType
  status : AgentStatus
  currentAction : String
  lastResponseTime : ℚ
  tokenUsage : Nat
  enabled : Bool
deriving DecidableEq, Repr

/-- The mutation intent `toggleAgentEnabled` from `NeuronContext.tsx` (lines 105-109): maps over the
agents list, flipping `enabled` on every agent whose `id` matches; a pure
function of the local agents state, no backend call in the source. -/
def toggleAgentEnabled (agentId : String) (agents : List Agent) : List Agent :=
  agents.map fun agent =>
    if agent.id = agentId then { agent with enabled := !agent.enabled } else agent

/-- The mutation intent `retryAgent` from `NeuronContext.tsx` (lines 111-117): maps over the agents
list, sending every agent whose `id` matches and whose `status` is `failed` to
`working` with `currentAction` set to `"Retrying..."`; again purely local. -/
def retryAgent (agentId : String) (agents : List Agent) : List Agent :=
  agents.map fun agent =>
    if agent.id = agentId ∧ agent.status = AgentStatus.failed then
      { agent with status := AgentStatus.working, currentAction := "Retrying..." }
    else agent

/-- The `mockAgents` initial state from `NeuronContext.tsx` (lines 30-37). -/
def mockAgents : List Agent :=
  [ { id := "1", name := "Architect", type := .architect, status := .idle,
      currentAction := "Awaiting instructions", lastResponseTime := 0,
      tokenUsage := 0, enabled := true },
    { id := "2", name := "Backend Agent", type := .backend, status := .working,
      currentAction := "Generating API endpoints for user authentication",
      lastResponseTime := 1.2, tokenUsage := 4521, enabled := true },
    { id := "3", name := "Frontend Agent", type := .frontend, status := .waiting,
      currentAction := "Waiting for backend schema", lastResponseTime := 0.8,
      tokenUsage := 2103, enabled := true },
    { id := "4", name := "Code Reviewer", type := .reviewer, status := .idle,
      currentAction := "Queue empty", lastResponseTime := 0,
      tokenUsage := 0, enabled := true },
    { id := "5", name := "File Patcher", type := .patcher, status := .working,
      currentAction := "Applying changes to src/api/auth.ts", lastResponseTime := 0.3,
      tokenUsage := 892, enabled := true },
    { id := "6", name := "Verifier", type := .verifier, status := .idle,
      currentAction := "Awaiting patches", lastResponseTime := 0,
      tokenUsage := 0, enabled := true } ]

lemma toggle_toggle_agent (agentId : String) (a : Agent) :
    (if (if a.id = agentId then { a with enabled := !a.enabled } else a).id = agentId then
      { (if a.id = agentId then { a with enabled := !a.enabled } else a) with
        enabled := !(if a.id = agentId then { a with enabled := !a.enabled } else a).enabled }
    else (if a.id = agentId then { a with enabled := !a.enabled } else a)) = a := by
  by_cases h : a.id = agentId
  · subst h; simp [Bool.not_not]
  · simp [h]

/-- C6: `toggleAgentEnabled` negates exactly the `enabled` flag of every agent
whose id matches (pointwise: each output agent is the corresponding input agent
with `enabled` flipped when its id matches, and unchanged otherwise), and
applying it twice with the same id restores the original list (involution). -/
theorem toggleAgentEnabled_spec (agents : List Agent) (agentId : String) :
    List.Forall₂ (fun a b =>
        b = if a.id = agentId then { a with enabled := !a.enabled } else a)
      agents (toggleAgentEnabled agentId agents) ∧
    toggleAgentEnabled agentId (toggleAgentEnabled agentId agents) = agents := by
  constructor
  · rw [toggleAgentEnabled, List.forall₂_map_right_iff]
    exact List.forall₂_same.2 fun a _ => rfl
  · rw [toggleAgentEnabled, toggleAgentEnabled, List.map_map]
    calc agents.map _ = agents.map id :=
          List.map_congr_left fun a _ => toggle_toggle_agent agentId a
      _ = agents := List.map_id agents

/-- C7: when the agent at position `i` has the requested id and status
`failed`, `retryAgent` transitions exactly that agent to status `working` with
the placeholder action `"Retrying..."`, leaving the list length unchanged;
the operation is a pure function of the local agents state. -/
theorem retryAgent_fires (agents : List Agent) (agentId : String) (i : Nat)
    (hi : i < agents.length)
    (hid : (agents.get ⟨i, hi⟩).id = agentId)
    (hst : (agents.get ⟨i, hi⟩).status = AgentStatus.failed) :
    (retryAgent agentId agents).length = agents.length ∧
    ∀ hj : i < (retryAgent agentId agents).length,
      (retryAgent agentId agents).get ⟨i, hj⟩ =
        { agents.get ⟨i, hi⟩ with
          status := AgentStatus.working, currentAction := "Retrying..." } := by
  refine ⟨by simp [retryAgent], fun hj => ?_⟩
  simp only [retryAgent, List.get_eq_getElem, List.getElem_map]
  rw [if_pos ⟨hid, hst⟩]

/-- A one-element agents list holding a failed agent, used to instantiate the
hypotheses of `retryAgent_fires` concretely. -/
def failedVerifier : Agent :=
  { id := "6", name := "Verifier", type := .verifier, status := .failed,
    currentAction := "Type check failed", lastResponseTime := 0,
    tokenUsage := 0, enabled := true }

/-- Witness for C7 at a concrete input: retrying the failed agent of the
one-element list `[failedVerifier]` yields the `working`/`"Retrying..."`
record. -/
theorem retryAgent_fires_witness :
    (retryAgent "6" [failedVerifier]).length = [failedVerifier].length ∧
    ∀ hj : 0 < (retryAgent "6" [failedVerifier]).length,
      (retryAgent "6" [failedVerifier]).get ⟨0, hj⟩ =
        { [failedVerifier].get ⟨0, by decide⟩ with
          status := AgentStatus.working, currentAction := "Retrying..." } :=
  retryAgent_fires [failedVerifier] "6" 0 (by decide) (by decide) (by decide)

/-- C10 (frame property of `retryAgent`): if no agent with the requested id is
failed (in particular if no agent has that id at all), the list is returned
unchanged; and in every case each output agent keeps the input agent's `id`,
`name`, `type`, `lastResponseTime`, `tokenUsage` and `enabled` fields, and is
entirely unchanged unless its id matches and its status is `failed`. -/
theorem retryAgent_frame (agents : List Agent) (agentId : String) :
    ((∀ a ∈ agents, a.id = agentId → a.status ≠ AgentStatus.failed) →
        retryAgent agentId agents = agents) ∧
    List.Forall₂ (fun a b =>
        b.id = a.id ∧ b.name = a.name ∧ b.type = a.type ∧
        b.lastResponseTime = a.lastResponseTime ∧ b.tokenUsage = a.tokenUsage ∧
        b.enabled = a.enabled ∧
        (¬(a.id = agentId ∧ a.status = AgentStatus.failed) → b = a))
      agents (retryAgent agentId agents) := by
  constructor
  · intro h
    rw [retryAgent]
    calc agents.map _ = agents.map id := by
          refine List.map_congr_left fun a ha => ?_
          rw [if_neg]
          · rfl
          · rintro ⟨hid, hst⟩
            exact h a ha hid hst
      _ = agents := List.map_id agents
  · rw [retryAgent, List.forall₂_map_right_iff]
    refine List.forall₂_same.2 fun a _ => ?_
    by_cases h : a.id = agentId ∧ a.status = AgentStatus.failed <;>
      simp [h]

/-- Witness for C10 at a concrete input: none of the six `mockAgents` is
failed, so `retryAgent` with id `"1"` (the idle Architect) leaves the whole
mock list untouched. -/
theorem retryAgent_frame_witness :
    retryAgent "1" mockAgents = mockAgents :=
  (retryAgent_frame mockAgents "1").1 (by decide)

/-! ### Log severity filter (`pages/Logs.tsx`) -/

/-- The `LogSeverity` union from `types/neuron.ts`: `'info' | 'warning' | 'error' | 'debug'`. -/
inductive LogSeverity
  | info
  | warning
  | error
  | debug
deriving DecidableEq, Repr

/-- The `LogEntry` record from `types/neuron.ts`. The timestamp (`Date`) is modelled as an
integer epoch value; the opaque display-only `context?` record is omitted. -/
structure LogEntry where
  id : String
  timestamp : Int
  severity : LogSeverity
  agent : Option String
  message : String
deriving DecidableEq, Repr

/-- The `filter` state of `Logs.tsx`: `LogSeverity | 'all'`. -/
inductive LogFilter
  | all
  | severity (s : LogSeverity)
deriving DecidableEq, Repr

/-- The computation `filteredLogs` from `Logs.tsx` (lines 14-16):
`filter === 'all' ? logs : logs.filter(l => l.severity === filter)`. -/
def filteredLogs (filter : LogFilter) (logs : List LogEntry) : List LogEntry :=
  match filter with
  | .all => logs
  | .severity f => logs.filter fun l => l.severity == f

/-- C8: filtering by `all` returns the full list unchanged, and filtering by
severity `error` returns exactly the order-preserving sublist of entries whose
severity is `error`: the result is a sublist of the input, and membership in it
is equivalent to membership in the input with severity `error`. The filter is a
pure synchronous function of the list by construction. -/
theorem filteredLogs_spec (logs : List LogEntry) :
    filteredLogs LogFilter.all logs = logs ∧
    List.Sublist (filteredLogs (LogFilter.severity LogSeverity.error) logs) logs ∧
    (∀ l : LogEntry,
      l ∈ filteredLogs (LogFilter.severity LogSeverity.error) logs ↔
        l ∈ logs ∧ l.severity = LogSeverity.error) := by
  refine ⟨rfl, List.filter_sublist logs, fun l => ?_⟩
  simp [filteredLogs, List.mem_filter]

/-! ### Aggregate dashboard poll (`App.jsx`, `fetchState`, lines 27-71) -/

/-- The metrics object held in the dashboard view model (`App.jsx` lines 14-20). -/
structure Metrics where
  tokensUsed : ℚ
  apiCalls : ℚ
  estimatedCost : ℚ
  avgTaskTime : ℚ
  agentFailureRate : ℚ
deriving DecidableEq, Repr

/-- One entry of the `/list-projects` response (`{path, name}`). -/
structure ProjectInfo where
  path : String
  name : String
deriving DecidableEq, Repr

/-- One entry of the backend `features` list consumed by `fetchState`
(`{feature, files?, timestamp?}`). -/
structure Feature where
  feature : String
  files : Option (List String)
  timestamp : Option String
deriving DecidableEq, Repr

/-- One display record of the activities list built in `fetchState`
(lines 41-51). -/
structure ActivityRecord where
  id : Nat
  request : String
  status : String
  filesChanged : Nat
  duration : String
  timestamp : String
  agents : List String
  files : List String
  safetyChecks : List String
deriving DecidableEq, Repr

/-- One entry of the `/agents/status` response (`{name, status, currentAction}`). -/
structure DashAgent where
  name : String
  status : String
  currentAction : String
deriving DecidableEq, Repr

/-- The dashboard view model: the `data` state of `App.jsx` (lines 10-25). -/
structure DashboardData where
  hasProject : Bool
  project : Option ProjectInfo
  projects : List ProjectInfo
  metrics : Metrics
  activities : List ActivityRecord
  agents : List DashAgent
  systemStatus : String
  lastAction : String
deriving DecidableEq, Repr

/-- The initial `data` state of `App.jsx` (lines 10-25). -/
def initialData : DashboardData :=
  { hasProject := false, project := none, projects := [],
    metrics := { tokensUsed := 0, apiCalls := 0, estimatedCost := 0,
                 avgTaskTime := 0, agentFailureRate := 0 },
    activities := [], agents := [], systemStatus := "offline",
    lastAction := "Never" }

/-- The `/dashboard-state` response body (consumed fields). `Option` marks
fields the backend may omit (`undefined` in the source). -/
structure StateResponse where
  status : String
  has_project : Bool
  project : Option ProjectInfo
  features : Option (List Feature)
  metrics : Option Metrics
deriving DecidableEq, Repr

/-- The `/agents/status` response body (consumed field `agents`). -/
structure AgentsResponse where
  agents : Option (List DashAgent)
deriving DecidableEq, Repr

/-- The `/list-projects` response body (consumed field `data`). -/
structure ProjectsResponse where
  data : Option (List ProjectInfo)
deriving DecidableEq, Repr

/-- JavaScript `x || d` on a possibly-absent string: `undefined` and `""` are
falsy. -/
def jsStringOr (x : Option String) (d : String) : String :=
  match x with
  | none => d
  | some s => if s = "" then d else s

/-- The per-feature display record built by the `map` callback of `fetchState`
(lines 41-51): `filesChanged = f.files?.length || 0`, fixed `status`,
`duration`, `agents` and `safetyChecks`, `timestamp = f.timestamp || "Just now"`. -/
def featureToActivity (i : Nat) (f : Feature) : ActivityRecord :=
  { id := i,
    request := f.feature,
    status := "success",
    filesChanged := (f.files.getD []).length,
    duration := "N/A",
    timestamp := jsStringOr f.timestamp "Just now",
    agents := ["Orchestrator"],
    files := f.files.getD [],
    safetyChecks := ["Verified"] }

/-- The activities list of `fetchState`: map the backend `features` list to
display records and reverse it; `[]` when `features` is absent (line 41/51). -/
def computeActivities (features : Option (List Feature)) : List ActivityRecord :=
  match features with
  | some fs => (fs.mapIdx featureToActivity).reverse
  | none => []

/-- The outcome of one aggregate poll. `netFail` is the `catch` path: any of
the `/dashboard-state`, `/agents/status`, `/list-projects` requests (or their
`.json()` parses) rejecting. The `/health` request carries its own
`.catch(() => ({ ok: false }))` and therefore never rejects the combined
promise; it is reduced to the boolean `healthOk`. -/
inductive PollOutcome
  | netFail
  | responses (state : StateResponse) (agentsRes : AgentsResponse)
      (projectsRes : ProjectsResponse) (healthOk : Bool)
deriving DecidableEq, Repr

/-- The state transition of one `fetchState` poll (lines 27-71): on the catch
path the view model is untouched; on responses it is replaced (via
`setData(prev => ({...prev, ...}))`, which overrides every field) only when
`stateData.status === 'success'`, with the fallbacks
`projectsData.data || []`, `stateData.metrics || prev.metrics`,
`agentsData.agents || prev.agents`, `healthRes.ok ? 'online' : 'offline'`, and
`lastAction` taken from the head of the reversed activities list. -/
def applyPoll (prev : DashboardData) (o : PollOutcome) : DashboardData :=
  match o with
  | .netFail => prev
  | .responses st ag pr healthOk =>
    if st.status = "success" then
      let activities := computeActivities st.features
      { hasProject := st.has_project,
        project := st.project,
        projects := pr.data.getD [],
        metrics := st.metrics.getD prev.metrics,
        activities := activities,
        agents := ag.agents.getD prev.agents,
        systemStatus := if healthOk then "online" else "offline",
        lastAction := match activities with
          | a :: _ => a.timestamp
          | [] => "Never" }
    else prev

/-- C2: whenever the aggregate poll does not fully succeed — the
dashboard-state response has `status !== 'success'`, or any of the combined
requests fails (the `catch` path `netFail`) — the view model is returned
untouched: no partial application of results. -/
theorem applyPoll_no_partial_update (prev : DashboardData) (st : StateResponse)
    (ag : AgentsResponse) (pr : ProjectsResponse) (healthOk : Bool)
    (h : st.status ≠ "success") :
    applyPoll prev (PollOutcome.responses st ag pr healthOk) = prev ∧
    applyPoll prev PollOutcome.netFail = prev :=
  ⟨by simp [applyPoll, h], rfl⟩

/-- A concrete non-success `/dashboard-state` response. -/
def errorStateResponse : StateResponse :=
  { status := "error", has_project := true,
    project := some { path := "/home/dev/projects/neuron-core", name := "neuron-core" },
    features := some [{ feature := "Add auth", files := some ["a.ts"], timestamp := none }],
    metrics := none }

/-- Witness for C2 at a concrete input: an `"error"` status response (and the
catch path) leave the initial view model untouched. -/
theorem applyPoll_no_partial_update_witness :
    applyPoll initialData
        (PollOutcome.responses errorStateResponse { agents := none } { data := none } true) =
      initialData ∧
    applyPoll initialData PollOutcome.netFail = initialData :=
  applyPoll_no_partial_update initialData errorStateResponse
    { agents := none } { data := none } true (by decide)

/-- C3: when `/dashboard-state` succeeds but the health check fails, the
resulting view model has `systemStatus = "offline"` while every other field is
updated exactly as in the fully-successful poll: the result equals the
healthy-poll result with only `systemStatus` overridden, and each field carries
the value taken from the successful responses. A health-check failure alone
never discards the combined update. -/
theorem applyPoll_healthFail_only_offline (prev : DashboardData) (st : StateResponse)
    (ag : AgentsResponse) (pr : ProjectsResponse)
    (h : st.status = "success") :
    (applyPoll prev (PollOutcome.responses st ag pr false)).systemStatus = "offline" ∧
    applyPoll prev (PollOutcome.responses st ag pr false) =
      { applyPoll prev (PollOutcome.responses st ag pr true) with
        systemStatus := "offline" } ∧
    (applyPoll prev (PollOutcome.responses st ag pr false)).hasProject = st.has_project ∧
    (applyPoll prev (PollOutcome.responses st ag pr false)).project = st.project ∧
    (applyPoll prev (PollOutcome.responses st ag pr false)).projects = pr.data.getD [] ∧
    (applyPoll prev (PollOutcome.responses st ag pr false)).metrics =
      st.metrics.getD prev.metrics ∧
    (applyPoll prev (PollOutcome.responses st ag pr false)).activities =
      computeActivities st.features ∧
    (applyPoll prev (PollOutcome.responses st ag pr false)).agents =
      ag.agents.getD prev.agents := by
  refine ⟨?_, ?_, ?_, ?_, ?_, ?_, ?_, ?_⟩ <;> simp [applyPoll, h]

/-- A concrete successful `/dashboard-state` response (the example scenario of
the spec: one feature `"Add auth"` touching two files). -/
def successStateResponse : StateResponse :=
  { status := "success", has_project := true,
    project := some { path := "/home/dev/projects/neuron-core", name := "neuron-core" },
    features := some [{ feature := "Add auth", files := some ["a.ts", "b.ts"],
                        timestamp := some "2m ago" }],
    metrics := none }

/-- Witness for C3 at a concrete input: health failing alongside a successful
dashboard-state response yields `systemStatus = "offline"`. -/
theorem applyPoll_healthFail_only_offline_witness :
    (applyPoll initialData
        (PollOutcome.responses successStateResponse { agents := none }
          { data := none } false)).systemStatus = "offline" :=
  (applyPoll_healthFail_only_offline initialData successStateResponse
    { agents := none } { data := none } rfl).1

lemma forall₂_mapIdx_self {α β : Type} (R : α → β → Prop) (g : Nat → α → β)
    (hg : ∀ i a, R a (g i a)) (l : List α) : List.Forall₂ R l (l.mapIdx g) := by
  refine List.forall₂_of_length_eq_of_get ?_ fun i h₁ h₂ => ?_
  · exact List.length_mapIdx.symm
  · rw [List.get_mapIdx l g i h₁]
    exact hg i _

lemma computeActivities_eq (features : Option (List Feature)) :
    computeActivities features = ((features.getD []).mapIdx featureToActivity).reverse := by
  cases features <;> rfl

/-- C4: for every successful dashboard-state response, the activities list is
the backend features list mapped to display records and then reversed; each
record's `filesChanged` is the length of the feature's files array (0 when
absent), its `agents` is `["Orchestrator"]` and its `safetyChecks` is
`["Verified"]`. In particular, for the input
`features = [{feature := "Add auth", files := ["a.ts","b.ts"], timestamp := "2m ago"}]`
the activities list is exactly one entry with `filesChanged = 2`,
`agents = ["Orchestrator"]`, `safetyChecks = ["Verified"]`. -/
theorem applyPoll_activities_spec (prev : DashboardData) (st : StateResponse)
    (ag : AgentsResponse) (pr : ProjectsResponse) (healthOk : Bool)
    (h : st.status = "success") :
    (applyPoll prev (PollOutcome.responses st ag pr healthOk)).activities =
      ((st.features.getD []).mapIdx featureToActivity).reverse ∧
    List.Forall₂ (fun (f : Feature) (a : ActivityRecord) =>
        a.request = f.feature ∧
        a.filesChanged = (f.files.getD []).length ∧
        a.agents = ["Orchestrator"] ∧
        a.safetyChecks = ["Verified"])
      (st.features.getD [])
      ((applyPoll prev (PollOutcome.responses st ag pr healthOk)).activities).reverse ∧
    (applyPoll initialData
        (PollOutcome.responses successStateResponse { agents := none }
          { data := none } true)).activities =
      [{ id := 0, request := "Add auth", status := "success", filesChanged := 2,
         duration := "N/A", timestamp := "2m ago", agents := ["Orchestrator"],
         files := ["a.ts", "b.ts"], safetyChecks := ["Verified"] }] := by
  have hact : (applyPoll prev (PollOutcome.responses st ag pr healthOk)).activities =
      ((st.features.getD []).mapIdx featureToActivity).reverse := by
    simp [applyPoll, h, computeActivities_eq]
  refine ⟨hact, ?_, by decide⟩
  rw [hact, List.reverse_reverse]
  exact forall₂_mapIdx_self _ featureToActivity (fun i f => ⟨rfl, rfl, rfl, rfl⟩) _

/-- Witness for C4 at the spec's example input: the single `"Add auth"`
feature with two files maps to the single display record with
`filesChanged = 2`. -/
theorem applyPoll_activities_spec_witness :
    (applyPoll initialData
        (PollOutcome.responses successStateResponse { agents := none }
          { data := none } true)).activities =
      [{ id := 0, request := "Add auth", status := "success", filesChanged := 2,
         duration := "N/A", timestamp := "2m ago", agents := ["Orchestrator"],
         files := ["a.ts", "b.ts"], safetyChecks := ["Verified"] }] :=
  (applyPoll_activities_spec initialData successStateResponse
    { agents := none } { data := none } true rfl).2.2

/-! ### Test-project login handlers (`controllers/authController.js`) -/

/-- A stored user document (`models/User.js`): the Mongo `_id` (here
`mongoId`), `email`, and the bcrypt-hashed `password`. -/
structure StoredUser where
  mongoId : String
  email : String
  password : String
deriving DecidableEq, Repr

/-- The request body of `POST /api/login`; either field may be absent
(`undefined`). -/
structure LoginRequest where
  email : Option String
  password : Option String
deriving DecidableEq, Repr

/-- The HTTP response a login handler produces: `res.json({token, user})`
(HTTP 200, carrying the token and the user's id and email) or
`res.status(s).json({message})`. A failure response carries no token by
construction. -/
inductive LoginResponse
  | success (token : String) (userId : String) (userEmail : String)
  | failure (status : Nat) (message : String)
deriving DecidableEq, Repr

/-- The fallible environment a login handler runs in: `User.findOne` (database
lookup) and `user.comparePassword` (bcrypt compare) are awaited promises that
may reject (`Except.error`), landing in the handler's catch-all 500 branch.
`jwt.sign` is modelled as total: with a fixed present secret it does not throw,
and a throwing `sign` would land in the same catch-all 500 branch as the other
two. -/
structure AuthEnv where
  findOne : String → Except Unit (Option StoredUser)
  comparePassword : StoredUser → String → Except Unit Bool
  sign : StoredUser → String

/-- JavaScript falsiness of a possibly-absent string (`!email`): absent
(`undefined`) and `""` are falsy. -/
def jsFalsyStr (x : Option String) : Bool :=
  match x with
  | none => true
  | some s => s == ""

/-- The handler `login` from `Neuron-Core/testproject/src/controllers/authController.js`
(lines 5-29): 400 `'Email and password are required.'` when either body field
is falsy; 401 `'Unauthorized - user not found or password incorrect'` when the
user is not found or the password comparison returns false; 500
`'Server error'` when the lookup or comparison throws; otherwise
`res.json({token, user: {id, email}})`. -/
def loginCore (env : AuthEnv) (body : LoginRequest) : LoginResponse :=
  if jsFalsyStr body.email || jsFalsyStr body.password then
    .failure 400 "Email and password are required."
  else
    match env.findOne (body.email.getD "") with
    | .error _ => .failure 500 "Server error"
    | .ok none => .failure 401 "Unauthorized - user not found or password incorrect"
    | .ok (some user) =>
      match env.comparePassword user (body.password.getD "") with
      | .error _ => .failure 500 "Server error"
      | .ok false => .failure 401 "Unauthorized - user not found or password incorrect"
      | .ok true => .success (env.sign user) user.mongoId user.email

/-- The handler `login` from `testproject/src/controllers/authController.js` (lines 5-17):
no input validation; `!user || !(await user.comparePassword(password))` yields
HTTP 400 `'Invalid email or password'`; the catch branch yields 500
`'Internal server error'`; otherwise `res.json({token, user: {id, email}})`.
The body fields are taken as the strings threaded into the lookup and
comparison. -/
def loginTest (env : AuthEnv) (email password : String) : LoginResponse :=
  match env.findOne email with
  | .error _ => .failure 500 "Internal server error"
  | .ok none => .failure 400 "Invalid email or password"
  | .ok (some user) =>
    match env.comparePassword user password with
    | .error _ => .failure 500 "Internal server error"
    | .ok false => .failure 400 "Invalid email or password"
    | .ok true => .success (env.sign user) user.mongoId user.email

/-- An environment whose database holds no user at all. -/
def envUnknownUser : AuthEnv :=
  { findOne := fun _ => Except.ok none,
    comparePassword := fun _ _ => Except.ok false,
    sign := fun u => "token-" ++ u.mongoId }

/-- C9 counterexample: the claim attributes status 401 to an unknown user, but
the `testproject/src/controllers/authController.js` handler (cited by the
claim) answers an unknown user with status 400 `'Invalid email or password'`,
never 401. -/
theorem loginTest_unknown_user_not_401 :
    loginTest envUnknownUser "nobody@example.com" "secret" =
      LoginResponse.failure 400 "Invalid email or password" ∧
    ¬ ∃ m, loginTest envUnknownUser "nobody@example.com" "secret" =
      LoginResponse.failure 401 m := by
  refine ⟨rfl, ?_⟩
  rintro ⟨m, hm⟩
  simp [loginTest, envUnknownUser] at hm

/-- C9 (amended): full input/output characterization of both login handlers.
For the Neuron-Core handler `loginCore`: falsy input gives 400; unknown user
or failed comparison gives 401; a thrown lookup/comparison gives 500; a found
user with a succeeding comparison gives the token/user success response; every
failure status is 400, 401 or 500; and a success response implies a user with
the given email was found and the password comparison succeeded (no token
otherwise). For the `testproject` variant `loginTest`: unknown user or failed
comparison gives 400, a throw gives 500 (all failures are 400 or 500, still
within {400, 401, 500}), and success again coincides exactly with a found user
and a succeeding comparison. -/
theorem login_spec (env : AuthEnv) (body : LoginRequest) (email password : String) :
    ((jsFalsyStr body.email || jsFalsyStr body.password) = true →
      loginCore env body = LoginResponse.failure 400 "Email and password are required.") ∧
    (∀ e p, body.email = some e → body.password = some p → e ≠ "" → p ≠ "" →
      ((env.findOne e = Except.ok none →
          loginCore env body =
            LoginResponse.failure 401 "Unauthorized - user not found or password incorrect") ∧
       (env.findOne e = Except.error () →
          loginCore env body = LoginResponse.failure 500 "Server error") ∧
       (∀ u, env.findOne e = Except.ok (some u) →
          ((env.comparePassword u p = Except.ok false →
              loginCore env body =
                LoginResponse.failure 401
                  "Unauthorized - user not found or password incorrect") ∧
           (env.comparePassword u p = Except.error () →
              loginCore env body = LoginResponse.failure 500 "Server error") ∧
           (env.comparePassword u p = Except.ok true →
              loginCore env body =
                LoginResponse.success (env.sign u) u.mongoId u.email))))) ∧
    (∀ s m, loginCore env body = LoginResponse.failure s m →
      s = 400 ∨ s = 401 ∨ s = 500) ∧
    (∀ t uid uem, loginCore env body = LoginResponse.success t uid uem →
      ∃ e p u, body.email = some e ∧ body.password = some p ∧
        env.findOne e = Except.ok (some u) ∧ env.comparePassword u p = Except.ok true) ∧
    (env.findOne email = Except.ok none →
      loginTest env email password = LoginResponse.failure 400 "Invalid email or password") ∧
    (env.findOne email = Except.error () →
      loginTest env email password = LoginResponse.failure 500 "Internal server error") ∧
    (∀ u, env.findOne email = Except.ok (some u) →
      ((env.comparePassword u password = Except.ok false →
          loginTest env email password = LoginResponse.failure 400 "Invalid email or password") ∧
       (env.comparePassword u password = Except.error () →
          loginTest env email password = LoginResponse.failure 500 "Internal server error") ∧
       (env.comparePassword u password = Except.ok true →
          loginTest env email password =
            LoginResponse.success (env.sign u) u.mongoId u.email))) ∧
    (∀ s m, loginTest env email password = LoginResponse.failure s m →
      s = 400 ∨ s = 500) ∧
    (∀ t uid uem, loginTest env email password = LoginResponse.success t uid uem →
      ∃ u, env.findOne email = Except.ok (some u) ∧
        env.comparePassword u password = Except.ok true) := by
  refine ⟨?_, ?_, ?_, ?_, ?_, ?_, ?_, ?_, ?_⟩
  · intro hfals
    simp [loginCore, hfals]
  · intro e p hbe hbp hene hpne
    have hce : jsFalsyStr (some e) = false := by simp [jsFalsyStr, hene]
    have hcp : jsFalsyStr (some p) = false := by simp [jsFalsyStr, hpne]
    exact ⟨fun hf => by simp [loginCore, hbe, hbp, hce, hcp, hf],
           fun hf => by simp [loginCore, hbe, hbp, hce, hcp, hf],
           fun u hf => ⟨fun hc => by simp [loginCore, hbe, hbp, hce, hcp, hf, hc],
                        fun hc => by simp [loginCore, hbe, hbp, hce, hcp, hf, hc],
                        fun hc => by simp [loginCore, hbe, hbp, hce, hcp, hf, hc]⟩⟩
  · intro s m h
    unfold loginCore at h
    split at h
    · injection h with h1 h2; omega
    · split at h
      · injection h with h1 h2; omega
      · injection h with h1 h2; omega
      · split at h
        · injection h with h1 h2; omega
        · injection h with h1 h2; omega
        · exact LoginResponse.noConfusion h
  · intro t uid uem h
    unfold loginCore at h
    split at h
    · exact LoginResponse.noConfusion h
    · rename_i hcond
      split at h
      · exact LoginResponse.noConfusion h
      · exact LoginResponse.noConfusion h
      · rename_i u hfind
        split at h
        · exact LoginResponse.noConfusion h
        · exact LoginResponse.noConfusion h
        · rename_i hcmp
          rcases hbe : body.email with _ | e
          · rw [hbe] at hcond; simp [jsFalsyStr] at hcond
          · rcases hbp : body.password with _ | p
            · rw [hbp] at hcond; simp [jsFalsyStr] at hcond
            · rw [hbe] at hfind
              rw [hbp] at hcmp
              exact ⟨e, p, u, rfl, rfl, by simpa using hfind, by simpa using hcmp⟩
  · intro hf
    simp [loginTest, hf]
  · intro hf
    simp [loginTest, hf]
  · intro u hf
    refine ⟨fun hc => ?_, fun hc => ?_, fun hc => ?_⟩ <;> simp [loginTest, hf, hc]
  · intro s m h
    unfold loginTest at h
    split at h
    · injection h with h1 h2; omega
    · injection h with h1 h2; omega
    · split at h
      · injection h with h1 h2; omega
      · injection h with h1 h2; omega
      · exact LoginResponse.noConfusion h
  · intro t uid uem h
    unfold loginTest at h
    split at h
    · exact LoginResponse.noConfusion h
    · exact LoginResponse.noConfusion h
    · rename_i u hfind
      split at h
      · exact LoginResponse.noConfusion h
      · exact LoginResponse.noConfusion h
      · rename_i hcmp
        exact ⟨u, hfind, hcmp⟩

/-- The registered test user for the happy-path witness. -/
def aliceUser : StoredUser :=
  { mongoId := "u1", email := "alice@example.com", password := "hashed-pw" }

/-- A concrete environment: a database holding exactly `aliceUser`, a
comparison accepting exactly the password `"secret"`, and a deterministic
token signer. -/
def envAlice : AuthEnv :=
  { findOne := fun e => Except.ok (if e = "alice@example.com" then some aliceUser else none),
    comparePassword := fun _ p => Except.ok (p == "secret"),
    sign := fun u => "token-" ++ u.mongoId }

/-- Witness for C9's amended theorem at a concrete input: Alice's valid
credentials yield the token/user success response from the Neuron-Core
handler. -/
theorem login_spec_witness :
    loginCore envAlice { email := some "alice@example.com", password := some "secret" } =
      LoginResponse.success "token-u1" "u1" "alice@example.com" :=
  (((login_spec envAlice
        { email := some "alice@example.com", password := some "secret" }
        "alice@example.com" "secret").2.1 "alice@example.com" "secret" rfl rfl
      (by decide) (by decide)).2.2 aliceUser rfl).2.2 rfl

end Neuron
